import Mathlib

/-!
Verification of the alternative-critical-damage module (pf2e-maximized-crit).

This file shallowly embeds the damage-formula synthesizer, the capture
cache and the fallback orchestration of the module script (version
v1.1.8) and proves the specified properties about them.

Formulas are synthesized as strings, exactly as the source builds them.
A small expression datatype DExpr gives the numeric semantics of those
strings: render turns an expression into the string the source builds,
and maxVal and minVal give the maximum and minimum numeric value the
rolled formula can take (each die shows its face count, respectively 1).
-/

/-- Truthiness of an optional string field as JavaScript sees it:
an absent field and the empty string are falsy. -/
def strTruthy : Option String → Bool
  | none => false
  | some s => !(s == "")

/-- The source idiom for damage types on optional fields:
falsy values default to the untyped sentinel. -/
def orUntyped : Option String → String
  | none => "untyped"
  | some s => if s == "" then "untyped" else s

/-- The source idiom for damage types on plain string parameters. -/
def orUntypedS (s : String) : String := if s == "" then "untyped" else s

/-- Remove the first occurrence of a character from a character list. -/
def removeFirstChar : List Char → Char → List Char
  | [], _ => []
  | c :: cs, d => if c = d then cs else c :: removeFirstChar cs d

/-- JavaScript replace with a one-character pattern and empty
replacement: removes the first occurrence of the character. -/
def jsReplaceFirst (s : String) (c : Char) : String := ⟨removeFirstChar s.data c⟩

/-- JavaScript parseInt on a nonnegative decimal prefix: reads the
leading digit run; no leading digit gives NaN, modelled as none. -/
def parseIntJS (s : String) : Option Nat :=
  let ds := s.data.takeWhile Char.isDigit
  if ds.isEmpty then none
  else some (ds.foldl (fun a c => 10 * a + (c.toNat - '0'.toNat)) 0)

/-- The source idiom parseInt(dieSize.replace(d, empty)) used to read
the numeric face count out of a die string such as d6. -/
def parseDieValue (s : String) : Option Nat := parseIntJS (jsReplaceFirst s 'd')

/-- JavaScript split on the character d, taking field 1: the text after
the first d (identical whenever the die string has the shape dN). -/
def jsSplitD1 (s : String) : String := ⟨(s.data.dropWhile (fun c => !(c = 'd'))).drop 1⟩

/-- Damage-formula expressions, covering exactly the shapes the module
builds. A diceS term keeps the raw die-size string that the source
splices verbatim into the formula (for example d6) together with its
numeric face value, which the numeric semantics uses. -/
inductive DExpr where
  | empty : DExpr
  | litN (k : Nat) : DExpr
  | litI (k : Int) : DExpr
  | dice (n size : Nat) : DExpr
  | diceS (n : Nat) (ds : String) (v : Nat) : DExpr
  | add (a b : DExpr) : DExpr
  | paren (a : DExpr) : DExpr
  | tag (a : DExpr) (t : String) : DExpr
deriving DecidableEq

/-- Render an expression to the formula string the module builds. -/
def render : DExpr → String
  | .empty => ""
  | .litN k => toString k
  | .litI k => toString k
  | .dice n size => toString n ++ "d" ++ toString size
  | .diceS n ds _ => toString n ++ ds
  | .add a b => render a ++ "+" ++ render b
  | .paren a => "(" ++ render a ++ ")"
  | .tag a t => render a ++ "[" ++ t ++ "]"

/-- Maximum possible numeric value of a formula: every die shows its
face count. -/
def maxVal : DExpr → Int
  | .empty => 0
  | .litN k => (k : Int)
  | .litI k => k
  | .dice n size => (n : Int) * (size : Int)
  | .diceS n _ v => (n : Int) * (v : Int)
  | .add a b => maxVal a + maxVal b
  | .paren a => maxVal a
  | .tag a _ => maxVal a

/-- Minimum possible numeric value of a formula: every die shows 1
(meaningful for dice with at least one face). -/
def minVal : DExpr → Int
  | .empty => 0
  | .litN k => (k : Int)
  | .litI k => k
  | .dice n _ => (n : Int)
  | .diceS n _ _ => (n : Int)
  | .add a b => minVal a + minVal b
  | .paren a => minVal a
  | .tag a _ => minVal a

theorem strExt {a b : String} (h : a.data = b.data) : a = b := by
  cases a; cases b; exact congrArg String.mk h

theorem strAppendAssoc (a b c : String) : a ++ b ++ c = a ++ (b ++ c) :=
  strExt (List.append_assoc a.data b.data c.data)

/-- The dice-or-modifier core of createDamageFormula: the local variable
named formula before category and type wrapping is applied. On a
critical the dice expression carries the maximum-die-value flat bonus. -/
def critCore (num die : Nat) (mod : Int) : String :=
  if num ≠ 0 ∧ die ≠ 0 then
    "(" ++ toString num ++ "d" ++ toString die ++ "+" ++ toString (num * die) ++ "+" ++ toString mod ++ ")"
  else if mod ≠ 0 then toString mod else ""

/-- Source function createDamageFormula (the critical-hit synthesizer):
dice roll plus the maximum die value plus the modifier, then optional
category wrapping and a damage-type tag. The source receives the die
size either as a number or as its decimal string and multiplies it; we
take the numeric value directly. -/
def createDamageFormula (num die : Nat) (mod : Int) (damageType category : String) : String :=
  let formula := critCore num die mod
  let formula2 := if category ≠ "" then "((" ++ formula ++ ")[" ++ category ++ "])" else formula
  if damageType ≠ "" then formula2 ++ "[" ++ damageType ++ "]" else formula2 ++ "[untyped]"

/-- The dice-or-modifier core of createStandardDamageFormula. -/
def stdCore (num die : Nat) (mod : Int) : String :=
  if num ≠ 0 ∧ die ≠ 0 then
    "(" ++ toString num ++ "d" ++ toString die ++ "+" ++ toString mod ++ ")"
  else if mod ≠ 0 then toString mod else ""

/-- Source function createStandardDamageFormula (the non-critical
synthesizer): dice roll plus the modifier, then optional category
wrapping and a damage-type tag. -/
def createStandardDamageFormula (num die : Nat) (mod : Int) (damageType category : String) : String :=
  let formula := stdCore num die mod
  let formula2 := if category ≠ "" then "((" ++ formula ++ ")[" ++ category ++ "])" else formula
  if damageType ≠ "" then formula2 ++ "[" ++ damageType ++ "]" else formula2 ++ "[untyped]"

/-- Expression form of createDamageFormula. -/
def createDamageFormulaE (num die : Nat) (mod : Int) (damageType category : String) : DExpr :=
  let e :=
    if num ≠ 0 ∧ die ≠ 0 then
      DExpr.paren (.add (.add (.dice num die) (.litN (num * die))) (.litI mod))
    else if mod ≠ 0 then DExpr.litI mod else DExpr.empty
  let e2 := if category ≠ "" then DExpr.paren (.tag (.paren e) category) else e
  if damageType ≠ "" then DExpr.tag e2 damageType else DExpr.tag e2 "untyped"

/-- Expression form of createStandardDamageFormula. -/
def createStandardDamageFormulaE (num die : Nat) (mod : Int) (damageType category : String) : DExpr :=
  let e :=
    if num ≠ 0 ∧ die ≠ 0 then
      DExpr.paren (.add (.dice num die) (.litI mod))
    else if mod ≠ 0 then DExpr.litI mod else DExpr.empty
  let e2 := if category ≠ "" then DExpr.paren (.tag (.paren e) category) else e
  if damageType ≠ "" then DExpr.tag e2 damageType else DExpr.tag e2 "untyped"

theorem createDamageFormula_render (num die : Nat) (mod : Int) (dt c : String) :
    createDamageFormula num die mod dt c = render (createDamageFormulaE num die mod dt c) := by
  simp only [createDamageFormula, createDamageFormulaE, critCore]
  split_ifs <;> simp only [render, strAppendAssoc] <;> rfl

theorem createStandardDamageFormula_render (num die : Nat) (mod : Int) (dt c : String) :
    createStandardDamageFormula num die mod dt c
      = render (createStandardDamageFormulaE num die mod dt c) := by
  simp only [createStandardDamageFormula, createStandardDamageFormulaE, stdCore]
  split_ifs <;> simp only [render, strAppendAssoc] <;> rfl

example : createDamageFormula 2 6 3 "piercing" "" = "(2d6+12+3)[piercing]" := by rfl
example : createDamageFormula 0 9 3 "fire" "persistent" = "((3)[persistent])[fire]" := by rfl
example : createStandardDamageFormula 2 6 3 "" "" = "(2d6+3)[untyped]" := by rfl

/-- A base damage entry of the captured rich damage structure
(the fields destructured by the base loop of
createAlternativeCriticalFormula; the category field is destructured
but never used there). An absent or null modifier is modelled as 0,
which the source treats identically (both are falsy). -/
structure BaseDamage where
  diceNumber : Nat
  dieSize : Option String
  modifier : Int
  damageType : Option String
  category : Option String
deriving DecidableEq

/-- A modifiers entry of the captured rich damage structure. -/
structure ModifierData where
  enabled : Bool
  ignored : Bool
  modifier : Int
  damageCategory : Option String
  damageType : Option String
deriving DecidableEq

/-- An additional-dice entry of the captured rich damage structure.
The source compares the critical flag with strict equality to true, so
it is kept as an optional boolean. -/
structure DiceData where
  enabled : Bool
  ignored : Bool
  critical : Option Bool
  diceNumber : Nat
  dieSize : Option String
  damageType : Option String
  category : Option String
deriving DecidableEq

/-- The rich damage structure the module captures from the host
(roll.options.damage.damage) or estimates from static item data. -/
structure DamageData where
  base : List BaseDamage
  modifiers : List ModifierData
  dice : List DiceData
deriving DecidableEq

/-- The formula part contributed by one base entry in
createAlternativeCriticalFormula (none when the entry is skipped).
The source computes parseInt(dieSize.replace(d, empty)) for the
maximum-die-value bonus; a die string without digits yields NaN there,
which we model as 0. -/
def basePartStr (isCriticalHit : Bool) (b : BaseDamage) : Option String :=
  if b.diceNumber ≠ 0 ∧ strTruthy b.dieSize then
    let ds := b.dieSize.getD ""
    let core :=
      if isCriticalHit then
        let f := "(" ++ toString b.diceNumber ++ ds ++ "+"
          ++ toString (b.diceNumber * ((parseDieValue ds).getD 0))
        let f2 := if b.modifier ≠ 0 then f ++ "+" ++ toString b.modifier else f
        f2 ++ ")"
      else
        let f := "(" ++ toString b.diceNumber ++ ds
        let f2 := if b.modifier ≠ 0 then f ++ "+" ++ toString b.modifier else f
        f2 ++ ")"
    some (core ++ "[" ++ orUntyped b.damageType ++ "]")
  else none

/-- Expression form of basePartStr. -/
def basePartE (isCriticalHit : Bool) (b : BaseDamage) : Option DExpr :=
  if b.diceNumber ≠ 0 ∧ strTruthy b.dieSize then
    let ds := b.dieSize.getD ""
    let v := (parseDieValue ds).getD 0
    let core :=
      if isCriticalHit then
        if b.modifier ≠ 0 then
          DExpr.paren (.add (.add (.diceS b.diceNumber ds v) (.litN (b.diceNumber * v))) (.litI b.modifier))
        else DExpr.paren (.add (.diceS b.diceNumber ds v) (.litN (b.diceNumber * v)))
      else
        if b.modifier ≠ 0 then DExpr.paren (.add (.diceS b.diceNumber ds v) (.litI b.modifier))
        else DExpr.paren (.diceS b.diceNumber ds v)
    some (.tag core (orUntyped b.damageType))
  else none

theorem basePart_render (c : Bool) (b : BaseDamage) :
    basePartStr c b = (basePartE c b).map render := by
  simp only [basePartStr, basePartE]
  split_ifs <;> simp only [Option.map, render, strAppendAssoc]

/-- The formula part contributed by one modifiers entry in
createAlternativeCriticalFormula: the value (doubled on a critical when
the double-static setting is on), wrapped in its category when present,
then tagged with its damage type. -/
def modifierPartStr (isCriticalHit doubleStatic : Bool) (m : ModifierData) : Option String :=
  if m.enabled ∧ ¬m.ignored ∧ m.modifier ≠ 0 then
    let v := if isCriticalHit ∧ doubleStatic then m.modifier * 2 else m.modifier
    let f := toString v
    let f2 := if strTruthy m.damageCategory then
        "(" ++ f ++ "[" ++ m.damageCategory.getD "" ++ "])"
      else f
    some (if strTruthy m.damageType then f2 ++ "[" ++ m.damageType.getD "" ++ "]"
      else f2 ++ "[untyped]")
  else none

/-- Expression form of modifierPartStr. -/
def modifierPartE (isCriticalHit doubleStatic : Bool) (m : ModifierData) : Option DExpr :=
  if m.enabled ∧ ¬m.ignored ∧ m.modifier ≠ 0 then
    let v := if isCriticalHit ∧ doubleStatic then m.modifier * 2 else m.modifier
    let e := DExpr.litI v
    let e2 := if strTruthy m.damageCategory then
        DExpr.paren (.tag e (m.damageCategory.getD ""))
      else e
    some (if strTruthy m.damageType then DExpr.tag e2 (m.damageType.getD "")
      else DExpr.tag e2 "untyped")
  else none

theorem modifierPart_render (c ds : Bool) (m : ModifierData) :
    modifierPartStr c ds m = (modifierPartE c ds m).map render := by
  simp only [modifierPartStr, modifierPartE]
  split_ifs <;> (try simp only [Option.map, render, strAppendAssoc]) <;> rfl

/-- The formula part contributed by one additional-dice entry in
createAlternativeCriticalFormula: included only when the entry is
enabled, not ignored, flagged critical with strict equality to true,
and the invocation is a critical hit; it is rendered as plain dice
(never with a maximum-die-value bonus). -/
def dicePartStr (isCriticalHit : Bool) (d : DiceData) : Option String :=
  if d.enabled ∧ ¬d.ignored ∧ d.critical = some true ∧ isCriticalHit
      ∧ d.diceNumber ≠ 0 ∧ strTruthy d.dieSize then
    let f := "(" ++ toString d.diceNumber ++ d.dieSize.getD "" ++ ")"
    let f2 := if strTruthy d.category then "(" ++ f ++ "[" ++ d.category.getD "" ++ "])" else f
    some (f2 ++ "[" ++ orUntyped d.damageType ++ "]")
  else none

/-- Expression form of dicePartStr. The face-value annotation on the
dice term is the numeric reading of the die string, which the numeric
semantics uses; the source never parses it on this path. -/
def dicePartE (isCriticalHit : Bool) (d : DiceData) : Option DExpr :=
  if d.enabled ∧ ¬d.ignored ∧ d.critical = some true ∧ isCriticalHit
      ∧ d.diceNumber ≠ 0 ∧ strTruthy d.dieSize then
    let ds := d.dieSize.getD ""
    let e := DExpr.paren (.diceS d.diceNumber ds ((parseDieValue ds).getD 0))
    let e2 := if strTruthy d.category then DExpr.paren (.tag e (d.category.getD "")) else e
    some (.tag e2 (orUntyped d.damageType))
  else none

theorem dicePart_render (c : Bool) (d : DiceData) :
    dicePartStr c d = (dicePartE c d).map render := by
  simp only [dicePartStr, dicePartE]
  split_ifs <;> simp only [Option.map, render, strAppendAssoc]
  rfl

/-- Source function createAlternativeCriticalFormula: the parts
contributed by the base entries, then the modifiers entries, then the
additional-dice entries, joined with commas inside a grouping brace
pair. The source throws when no part was produced; that is modelled as
none. -/
def createAlternativeCriticalFormula (dd : DamageData) (isCriticalHit doubleStatic : Bool) :
    Option String :=
  let parts := dd.base.filterMap (basePartStr isCriticalHit)
      ++ dd.modifiers.filterMap (modifierPartStr isCriticalHit doubleStatic)
      ++ dd.dice.filterMap (dicePartStr isCriticalHit)
  if parts = [] then none
  else some ("\x7b" ++ String.intercalate "," parts ++ "\x7d")

example :
    createAlternativeCriticalFormula
      ⟨[⟨2, some "d6", 1, some "piercing", none⟩],
       [⟨true, false, 3, none, none⟩], []⟩ true true
      = some "\x7b(2d6+12+1)[piercing],6[untyped]\x7d" := by rfl

example :
    createAlternativeCriticalFormula
      ⟨[⟨1, some "d6", 0, some "slashing", none⟩], [],
       [⟨true, false, some true, 1, some "d10", some "slashing", none⟩]⟩ true false
      = some "\x7b(1d6+6)[slashing],(1d10)[slashing]\x7d" := by rfl

/-- The single capture slot (global lastDamageRollData): the identity of
the item of the captured message (none when the message had no item),
the rich damage structure found on the captured roll (none when the
roll carried none), and the capture timestamp in epoch milliseconds. -/
structure LastDamageRollData where
  itemId : Option Nat
  damageData : Option DamageData
  timestamp : Int
deriving DecidableEq

/-- The capture-cache lookup performed by
rollAlternativeCriticalDamageFromPF2eData: the captured structure is
used only when the captured message has an item whose identity equals
the item being alt-critted and the elapsed time is strictly below
30000 milliseconds; in every other case the invocation proceeds as a
miss. -/
def lookupCapturedDamage (cache : Option LastDamageRollData) (itemId : Nat) (now : Int) :
    Option DamageData :=
  match cache with
  | none => none
  | some c =>
    if c.itemId = some itemId ∧ now - c.timestamp < 30000 then c.damageData
    else none

/-- Item types distinguished by the legacy roll path. -/
inductive ItemType where
  | weapon
  | spell
  | other
deriving DecidableEq

/-- The weapon-shaped damage block item.system.damage: dice count, die
string (for example d6), damage type, static modifier, persistent
number and the probed bonus field. Absent fields are none. -/
structure WeaponDamage where
  dice : Nat
  die : Option String
  damageType : Option String
  modifier : Option Int
  persistent : Option Int
  bonus : Option Int
deriving DecidableEq

/-- The item.system.bonus field, which the source probes by type:
absent, a plain number, or an object with optional numeric damage and
flat fields. -/
inductive JsBonus where
  | absent
  | num (n : Int)
  | obj (damage flat : Option Int)
deriving DecidableEq

/-- A term of a host-parsed roll formula: a dice term with its count
and face number, a numeric term, or any other term kind (skipped by
the source, which only tests for the dice and numeric classes). -/
inductive RollTerm where
  | dice (number faces : Nat)
  | numeric (number : Int)
  | other
deriving DecidableEq

/-- The damage field of one spell damage instance after the host dice
engine has processed it: absent (falsy, instance skipped), unparseable
(the host Roll constructor threw), or the parsed term list. -/
inductive SpellDamageField where
  | absent
  | unparseable
  | parsed (terms : List RollTerm)
deriving DecidableEq

/-- One spell damage instance value of the keyed item.system.damage
map, with its damage type. -/
structure SpellInstance where
  damage : SpellDamageField
  dtype : Option String
deriving DecidableEq

/-- The static item data read by the fallback tiers. The source field
item.system.damage is shape-sniffed: for weapons and the plain
fallback it is the weapon-shaped block (damage), for spells it is a
keyed map of instances (spellDamage). splashDamage and bonusDamage
hold the respective value fields; runesStriking is the striking rune
count when it is a number; properties holds the per-property bonus
fields of the weapon property array. -/
structure ItemData where
  id : Nat
  itemType : ItemType
  damage : Option WeaponDamage
  spellDamage : List SpellInstance
  splashDamage : Option Int
  bonusDamage : Option Int
  runesStriking : Option Int
  traits : List String
  bonus : JsBonus
  flatDamageBonus : Option Int
  properties : List (Option Int)
  category : Option String
deriving DecidableEq

/-- The totalModifier aggregation of parseWeaponDamage, summing every
probed bonus source in source order. The same underlying fields are
probed more than once by the source (the damage modifier twice, a
numeric item.system.bonus four times, the bonusDamage value under a
truthiness probe and again under a defined probe); the sum reproduces
that faithfully. -/
def weaponTotalModifier (item : ItemData) (damage : WeaponDamage) : Int :=
  (damage.modifier.getD 0)
  + (match item.bonusDamage with | some v => if v ≠ 0 then v else 0 | none => 0)
  + (match damage.persistent with | some p => if p ≠ 0 then p else 0 | none => 0)
  + (match item.splashDamage with | some v => if v ≠ 0 then v else 0 | none => 0)
  + (match item.bonus with | .obj d f => d.getD 0 + f.getD 0 | _ => 0)
  + (item.flatDamageBonus.getD 0)
  + (damage.bonus.getD 0)
  + (item.bonusDamage.getD 0)
  + (match item.bonus with | .num n => n | _ => 0)
  + (match item.bonus with | .num n => n | _ => 0)
  + (match item.bonus with | .num n => n | _ => 0)
  + (damage.modifier.getD 0)
  + (item.properties.foldl
      (fun acc p => acc + match p with | some b => if b ≠ 0 then b else 0 | none => 0) 0)
  + (match item.bonus with | .num n => n | _ => 0)

/-- Source function parseWeaponDamage: reads the weapon damage block,
takes the text after the d of the die string, aggregates every probed
modifier, and on a critical folds the striking-rune dice into the base
dice count before synthesizing one single formula with
createDamageFormula (standard formula otherwise). The source passes
the die text (for example 6) where a number is multiplied; we parse it,
modelling the non-numeric case (NaN in the source) as 0. -/
def parseWeaponDamage (item : ItemData) (isCriticalHit : Bool) : Option String :=
  match item.damage with
  | none => none
  | some damage =>
    let dieType := match damage.die with
      | some s => if s ≠ "" then some (jsSplitD1 s) else none
      | none => none
    if damage.dice ≠ 0 ∧ dieType.getD "" ≠ "" then
      let totalModifier := weaponTotalModifier item damage
      if isCriticalHit then
        let totalDice := damage.dice
          + (match item.runesStriking with | some s => if 0 < s then s.toNat else 0 | none => 0)
        some (createDamageFormula totalDice ((parseIntJS (dieType.getD "")).getD 0)
          totalModifier (orUntyped damage.damageType) "")
      else
        some (createStandardDamageFormula damage.dice ((parseIntJS (dieType.getD "")).getD 0)
          totalModifier (orUntyped damage.damageType) "")
    else none

/-- The formula parts one host-parsed roll term contributes in
parseSpellDamage: dice terms become one dice component; nonzero
numeric terms become one flat component, doubled on a critical when
the double-static setting is on; other term kinds are skipped. -/
def spellTermParts (isCriticalHit doubleStatic : Bool) (t : Option String) :
    RollTerm → List String
  | .dice n faces =>
    [if isCriticalHit then createDamageFormula n faces 0 (orUntyped t) ""
     else createStandardDamageFormula n faces 0 (orUntyped t) ""]
  | .numeric k =>
    if k ≠ 0 then
      [if isCriticalHit ∧ doubleStatic then createDamageFormula 0 1 (k * 2) (orUntyped t) ""
       else createStandardDamageFormula 0 1 k (orUntyped t) ""]
    else []
  | .other => []

/-- The formula parts one spell damage instance contributes in
parseSpellDamage: an absent damage formula is skipped, a formula the
host could not parse falls back to a single 1d6 component, and a
parsed formula contributes per term. -/
def spellInstanceParts (isCriticalHit doubleStatic : Bool) (inst : SpellInstance) : List String :=
  match inst.damage with
  | .absent => []
  | .unparseable =>
    [if isCriticalHit then createDamageFormula 1 6 0 (orUntyped inst.dtype) ""
     else createStandardDamageFormula 1 6 0 (orUntyped inst.dtype) ""]
  | .parsed ts => ts.flatMap (spellTermParts isCriticalHit doubleStatic inst.dtype)

/-- Source function parseSpellDamage: an absent or empty keyed damage
map yields null; otherwise the per-instance parts are joined with
commas, and an empty part list yields null. -/
def parseSpellDamage (item : ItemData) (isCriticalHit doubleStatic : Bool) : Option String :=
  if item.spellDamage = [] then none
  else
    let parts := item.spellDamage.flatMap (spellInstanceParts isCriticalHit doubleStatic)
    if parts = [] then none else some (String.intercalate "," parts)

/-- The plain-item fallback of the legacy roll path (item types other
than weapon and spell): a single formula from the flat damage block. -/
def legacyOtherFormula (item : ItemData) (isCriticalHit : Bool) : Option String :=
  match item.damage with
  | none => none
  | some baseDamage =>
    if baseDamage.dice ≠ 0 ∧ strTruthy baseDamage.die then
      let dieType := (parseIntJS (jsSplitD1 (baseDamage.die.getD ""))).getD 0
      let modifier := baseDamage.modifier.getD 0
      if isCriticalHit then
        some (createDamageFormula baseDamage.dice dieType modifier
          (orUntyped baseDamage.damageType) "")
      else
        some (createStandardDamageFormula baseDamage.dice dieType modifier
          (orUntyped baseDamage.damageType) "")
    else none

/-- The damage formula chosen by rollAlternativeCriticalDamageLegacy,
by item type. -/
def legacyDamageFormula (item : ItemData) (isCriticalHit doubleStatic : Bool) : Option String :=
  match item.itemType with
  | .weapon => parseWeaponDamage item isCriticalHit
  | .spell => parseSpellDamage item isCriticalHit doubleStatic
  | .other => legacyOtherFormula item isCriticalHit

/-- Observable outcome of one alt-crit invocation: a chat post carrying
one evaluated roll, a chat post carrying one roll per comma-separated
formula part (the legacy path), or a user-visible warning with no roll
issued and no chat post. -/
inductive AltCritOutcome where
  | posted (formula : String)
  | postedMulti (formulas : List String)
  | warned
deriving DecidableEq

/-- Source function rollAlternativeCriticalDamageLegacy: when no
formula is found it warns and returns without rolling; otherwise it
splits the formula on commas and posts the evaluated rolls. -/
def rollAlternativeCriticalDamageLegacy (item : ItemData) (isCriticalHit doubleStatic : Bool) :
    AltCritOutcome :=
  match legacyDamageFormula item isCriticalHit doubleStatic with
  | none => .warned
  | some f => .postedMulti (f.splitOn ",")

/-- JavaScript startsWith: a prefix test on the character sequence. -/
def jsStartsWith (s p : String) : Bool := List.isPrefixOf p.data s.data

/-- The synthetic rich damage structure assembled by
attemptDirectDamageCalculation from static item and actor data: base
dice from the weapon damage block, one strength modifier entry for
non-unarmed weapons with a positive strength modifier, and one
critical-only dice entry per deadly trait token (the trait text after
the deadly- prefix becomes the die string). When the damage block is
absent and a deadly trait is present the source throws while reading
the base damage type; the surrounding catch then falls back to the
legacy path, modelled as none. -/
def buildSyntheticDamageData (item : ItemData) (strMod : Int) : Option DamageData :=
  let strEntries : List ModifierData :=
    if item.itemType = ItemType.weapon ∧ item.category ≠ some "unarmed" ∧ 0 < strMod then
      [⟨true, false, strMod, none, none⟩]
    else []
  match item.damage with
  | some baseDamage =>
    some
      { base :=
          if baseDamage.dice ≠ 0 ∧ strTruthy baseDamage.die then
            [⟨baseDamage.dice, baseDamage.die, baseDamage.modifier.getD 0,
              some (orUntyped baseDamage.damageType), none⟩]
          else [],
        modifiers := strEntries,
        dice := item.traits.filterMap (fun t =>
          if jsStartsWith t "deadly-" then
            some ⟨true, false, some true, 1, some (t.drop 7),
              some (orUntyped baseDamage.damageType), none⟩
          else none) }
  | none =>
    if item.traits.any (fun t => jsStartsWith t "deadly-") then none
    else some { base := [], modifiers := strEntries, dice := [] }

/-- Source function attemptDirectDamageCalculation: when the synthetic
structure has base dice the alternative formula is synthesized and
posted; otherwise (including the throwing cases caught at the call
site) the legacy path runs. -/
def attemptDirectDamageCalculation (item : ItemData) (strMod : Int)
    (isCriticalHit doubleStatic : Bool) : AltCritOutcome :=
  match buildSyntheticDamageData item strMod with
  | some s =>
    if s.base ≠ [] then
      match createAlternativeCriticalFormula s isCriticalHit doubleStatic with
      | some f => .posted f
      | none => rollAlternativeCriticalDamageLegacy item isCriticalHit doubleStatic
    else rollAlternativeCriticalDamageLegacy item isCriticalHit doubleStatic
  | none => rollAlternativeCriticalDamageLegacy item isCriticalHit doubleStatic

/-- Source function rollAlternativeCriticalDamageFromPF2eData, the
per-invocation orchestration: a fresh matching capture with a rich
structure is synthesized and posted (a synthesis throw is caught and
sent to the legacy path); any miss falls to the direct calculation. -/
def rollAlternativeCriticalDamageFromPF2eData (cache : Option LastDamageRollData)
    (item : ItemData) (strMod : Int) (now : Int) (isCriticalHit doubleStatic : Bool) :
    AltCritOutcome :=
  match lookupCapturedDamage cache item.id now with
  | some dd =>
    match createAlternativeCriticalFormula dd isCriticalHit doubleStatic with
    | some f => .posted f
    | none => rollAlternativeCriticalDamageLegacy item isCriticalHit doubleStatic
  | none => attemptDirectDamageCalculation item strMod isCriticalHit doubleStatic

/-- C1: for every component with diceCount at least 1 and dieSize
present, the critical-hit synthesized expression has maximum possible
numeric value 2*diceCount*dieSize + flatModifier and minimum possible
value diceCount + diceCount*dieSize + flatModifier; this holds for the
createDamageFormula synthesizer and for the captured-structure base
path of createAlternativeCriticalFormula. -/
theorem claimC1 :
    (∀ (n v : Nat) (m : Int) (dt c : String), 1 ≤ n → 1 ≤ v →
      createDamageFormula n v m dt c = render (createDamageFormulaE n v m dt c)
        ∧ maxVal (createDamageFormulaE n v m dt c) = 2 * n * v + m
        ∧ minVal (createDamageFormulaE n v m dt c) = n + n * v + m)
    ∧ (∀ (n v : Nat) (ds : String) (m : Int) (dt cat : Option String),
        1 ≤ n → 1 ≤ v → parseDieValue ds = some v → ds ≠ "" →
      ∃ e, basePartE true ⟨n, some ds, m, dt, cat⟩ = some e
        ∧ basePartStr true ⟨n, some ds, m, dt, cat⟩ = some (render e)
        ∧ maxVal e = 2 * n * v + m
        ∧ minVal e = n + n * v + m) := by
  constructor
  · intro n v m dt c hn hv
    have hn0 : n ≠ 0 := by omega
    have hv0 : v ≠ 0 := by omega
    refine ⟨createDamageFormula_render n v m dt c, ?_, ?_⟩ <;>
    · simp only [createDamageFormulaE]
      rw [if_pos (And.intro hn0 hv0)]
      split_ifs <;> simp only [maxVal, minVal] <;> push_cast <;> ring
  · intro n v ds m dt cat hn hv hparse hds
    have hn0 : n ≠ 0 := by omega
    have hts : strTruthy (some ds) = true := by simp [strTruthy, hds]
    have hE : basePartE true ⟨n, some ds, m, dt, cat⟩
        = some (DExpr.tag (if m ≠ 0 then
            DExpr.paren (.add (.add (.diceS n ds v) (.litN (n * v))) (.litI m))
          else DExpr.paren (.add (.diceS n ds v) (.litN (n * v)))) (orUntyped dt)) := by
      simp only [basePartE, if_pos (And.intro hn0 hts), Option.getD, hparse, if_true]
    refine ⟨_, hE, ?_, ?_, ?_⟩
    · rw [basePart_render, hE]; rfl
    · split_ifs with hm
      · simp only [maxVal]; push_cast; ring
      · push_neg at hm; subst hm; simp only [maxVal]; push_cast; ring
    · split_ifs with hm
      · simp only [minVal]; push_cast; ring
      · push_neg at hm; subst hm; simp only [minVal]; push_cast; ring

/-- Witness for C1 at diceCount 2, die d6, flat modifier 3. -/
theorem claimC1_witness :
    ((1 ≤ 2 ∧ 1 ≤ 6 ∧ parseDieValue "d6" = some 6 ∧ "d6" ≠ "")
      ∧ (createDamageFormula 2 6 3 "piercing" ""
            = render (createDamageFormulaE 2 6 3 "piercing" "")
          ∧ maxVal (createDamageFormulaE 2 6 3 "piercing" "") = 2 * 2 * 6 + 3
          ∧ minVal (createDamageFormulaE 2 6 3 "piercing" "") = 2 + 2 * 6 + 3))
    ∧ (∃ e, basePartE true ⟨2, some "d6", 3, some "piercing", none⟩ = some e
        ∧ basePartStr true ⟨2, some "d6", 3, some "piercing", none⟩ = some (render e)
        ∧ maxVal e = 2 * 2 * 6 + 3
        ∧ minVal e = 2 + 2 * 6 + 3) :=
  ⟨⟨⟨by decide, by decide, by decide, by decide⟩,
    claimC1.1 2 6 3 "piercing" "" (by decide) (by decide)⟩,
   claimC1.2 2 6 "d6" 3 (some "piercing") none (by decide) (by decide) (by decide) (by decide)⟩

/-- C2 counterexample: a capture for item 1 taken at time 0 with a
stored rich structure is already a miss when looked up exactly 30000
milliseconds later, contradicting the claimed inclusive boundary; one
millisecond earlier it is still returned. -/
theorem claimC2_cx :
    lookupCapturedDamage (some ⟨some 1, some ⟨[], [], []⟩, 0⟩) 1 30000 = none
      ∧ lookupCapturedDamage (some ⟨some 1, some ⟨[], [], []⟩, 0⟩) 1 29999
          = some ⟨[], [], []⟩ := by
  constructor <;> decide

/-- C2 amended: capture-cache lookup returns the stored rich damage
structure exactly when the stored itemIdentity equals the item being
alt-critted and the elapsed time now - capturedAt is strictly less
than 30000 milliseconds (lookup at capturedAt + 29999 returns the
entry; at capturedAt + 30000 it returns a Miss); otherwise it is a
Miss. -/
theorem claimC2_amended :
    (∀ (c : LastDamageRollData) (idv : Nat) (dd : DamageData) (now : Int),
      c.itemId = some idv → c.damageData = some dd →
      (lookupCapturedDamage (some c) idv now = some dd ↔ now - c.timestamp < 30000))
    ∧ (∀ (c : LastDamageRollData) (idv : Nat) (now : Int),
      c.itemId ≠ some idv → lookupCapturedDamage (some c) idv now = none) := by
  constructor
  · intro c idv dd now hid hdd
    simp only [lookupCapturedDamage]
    constructor
    · intro h
      by_contra hc
      rw [if_neg (fun hand => hc hand.2)] at h
      exact Option.noConfusion h
    · intro ht
      rw [if_pos ⟨hid, ht⟩, hdd]
  · intro c idv now hid
    simp only [lookupCapturedDamage]
    exact if_neg (fun hand => hid hand.1)

/-- Witness for the amended C2 at a fresh lookup 15000 milliseconds
after capture. -/
theorem claimC2_witness :
    ((⟨some 1, some ⟨[], [], []⟩, 0⟩ : LastDamageRollData).itemId = some 1
      ∧ (⟨some 1, some ⟨[], [], []⟩, 0⟩ : LastDamageRollData).damageData = some ⟨[], [], []⟩)
    ∧ (lookupCapturedDamage (some ⟨some 1, some ⟨[], [], []⟩, 0⟩) 1 15000 = some ⟨[], [], []⟩
        ↔ (15000 : Int) - (⟨some 1, some ⟨[], [], []⟩, 0⟩ : LastDamageRollData).timestamp
            < 30000) :=
  ⟨⟨by decide, by decide⟩,
   claimC2_amended.1 ⟨some 1, some ⟨[], [], []⟩, 0⟩ 1 ⟨[], [], []⟩ 15000 (by decide) (by decide)⟩

/-- C3 counterexample: the modifiers path of
createAlternativeCriticalFormula renders a flat persistent 3 fire
component on a critical (double-static off, so the value itself is
unchanged) as (3[persistent])[fire], which is not the claimed fixed
shape ((3)[persistent])[fire]. -/
theorem claimC3_cx :
    modifierPartStr true false ⟨true, false, 3, some "persistent", some "fire"⟩
        = some "(3[persistent])[fire]"
      ∧ "(3[persistent])[fire]" ≠ "((3)[persistent])[fire]" := by
  constructor <;> decide

/-- The empty damage type defaults to the untyped sentinel. -/
theorem orUntypedS_empty : orUntypedS "" = "untyped" := by decide

/-- A nonempty damage type passes through unchanged. -/
theorem orUntypedS_of_ne {s : String} (h : s ≠ "") : orUntypedS s = s := by
  simp [orUntypedS, h]

/-- C3 amended: every synthesized component with a non-empty category
nests the category tag inside and the damage-type tag outside. The
createDamageFormula and createStandardDamageFormula synthesizers and
the extra-dice path render the fixed shape ((sub)[category])[damageType],
and in particular a flat persistent-3 fire component rendered through
createDamageFormula (the critical synthesizer) gives exactly
((3)[persistent])[fire] with no maximum-value bonus; the modifiers
path however renders (value[category])[damageType] without the inner
parentheses, with the value doubled exactly when the hit is critical
and the double-static setting is on. -/
theorem claimC3_amended :
    (∀ (num die : Nat) (m : Int) (dt c : String), c ≠ "" →
      createDamageFormula num die m dt c
        = "((" ++ critCore num die m ++ ")[" ++ c ++ "])" ++ "[" ++ orUntypedS dt ++ "]")
    ∧ (∀ (num die : Nat) (m : Int) (dt c : String), c ≠ "" →
      createStandardDamageFormula num die m dt c
        = "((" ++ stdCore num die m ++ ")[" ++ c ++ "])" ++ "[" ++ orUntypedS dt ++ "]")
    ∧ (∀ (d : DiceData), d.enabled = true → d.ignored = false → d.critical = some true →
        d.diceNumber ≠ 0 → strTruthy d.dieSize = true → strTruthy d.category = true →
      dicePartStr true d
        = some ("((" ++ toString d.diceNumber ++ d.dieSize.getD "" ++ ")["
            ++ d.category.getD "" ++ "])" ++ "[" ++ orUntyped d.damageType ++ "]"))
    ∧ (∀ (me : ModifierData) (crit ds : Bool), me.enabled = true → me.ignored = false →
        me.modifier ≠ 0 → strTruthy me.damageCategory = true →
      modifierPartStr crit ds me
        = some ("(" ++ toString (if crit ∧ ds then me.modifier * 2 else me.modifier)
            ++ "[" ++ me.damageCategory.getD "" ++ "])"
            ++ (if strTruthy me.damageType then "[" ++ me.damageType.getD "" ++ "]"
                else "[untyped]")))
    ∧ createDamageFormula 0 9 3 "fire" "persistent" = "((3)[persistent])[fire]" := by
  refine ⟨?_, ?_, ?_, ?_, by decide⟩
  · intro num die m dt c hc
    simp only [createDamageFormula]
    rw [if_pos hc]
    by_cases hdt : dt = ""
    · subst hdt
      rw [if_neg (by simp), orUntypedS_empty]
      simp only [strAppendAssoc]
      rfl
    · rw [if_pos hdt, orUntypedS_of_ne hdt]
  · intro num die m dt c hc
    simp only [createStandardDamageFormula]
    rw [if_pos hc]
    by_cases hdt : dt = ""
    · subst hdt
      rw [if_neg (by simp), orUntypedS_empty]
      simp only [strAppendAssoc]
      rfl
    · rw [if_pos hdt, orUntypedS_of_ne hdt]
  · intro d h1 h2 h3 h4 h5 h6
    simp only [dicePartStr]
    rw [if_pos ⟨h1, by simp [h2], h3, trivial, h4, h5⟩, if_pos h6]
    simp only [strAppendAssoc]
    rfl
  · intro me crit ds h1 h2 h3 h4
    simp only [modifierPartStr]
    rw [if_pos ⟨h1, by simp [h2], h3⟩, if_pos h4]
    by_cases hdt : strTruthy me.damageType = true
    · rw [if_pos hdt, if_pos hdt]
      simp only [strAppendAssoc]
    · rw [if_neg hdt, if_neg hdt]

/-- Witness for the amended C3 on concrete components. -/
theorem claimC3_witness :
    (("persistent" : String) ≠ ""
      ∧ createDamageFormula 2 6 0 "fire" "persistent"
          = "((" ++ critCore 2 6 0 ++ ")[" ++ "persistent" ++ "])" ++ "[" ++ orUntypedS "fire" ++ "]")
    ∧ ((⟨true, false, 3, some "persistent", some "fire"⟩ : ModifierData).enabled = true
      ∧ modifierPartStr true true ⟨true, false, 3, some "persistent", some "fire"⟩
          = some ("(" ++ toString (if true ∧ true then (3 : Int) * 2 else 3)
              ++ "[" ++ (some "persistent").getD "" ++ "])"
              ++ (if strTruthy (some "fire") then "[" ++ (some "fire").getD "" ++ "]"
                  else "[untyped]"))) :=
  ⟨⟨by decide, claimC3_amended.1 2 6 0 "fire" "persistent" (by decide)⟩,
   ⟨by decide,
    claimC3_amended.2.2.2.1 ⟨true, false, 3, some "persistent", some "fire"⟩ true true
      (by decide) (by decide) (by decide) (by decide)⟩⟩

/-- A defaulted damage type is never the empty string. -/
theorem orUntyped_ne_empty (x : Option String) : orUntyped x ≠ "" := by
  cases x with
  | none => decide
  | some s =>
    simp only [orUntyped]
    split_ifs with h
    · decide
    · simp at h
      exact h

/-- The maximum value of a critical formula expression with dice is
twice the dice maximum plus the modifier. -/
theorem maxVal_createDamageFormulaE (n v : Nat) (m : Int) (dt c : String)
    (hn : n ≠ 0) (hv : v ≠ 0) :
    maxVal (createDamageFormulaE n v m dt c) = 2 * n * v + m := by
  simp only [createDamageFormulaE]
  rw [if_pos (And.intro hn hv)]
  split_ifs <;> simp only [maxVal] <;> push_cast <;> ring

/-- The minimum value of a critical formula expression with dice is the
dice count plus the dice maximum plus the modifier. -/
theorem minVal_createDamageFormulaE (n v : Nat) (m : Int) (dt c : String)
    (hn : n ≠ 0) (hv : v ≠ 0) :
    minVal (createDamageFormulaE n v m dt c) = n + n * v + m := by
  simp only [createDamageFormulaE]
  rw [if_pos (And.intro hn hv)]
  split_ifs <;> simp only [minVal] <;> push_cast <;> ring

/-- A nonempty string passed through the damage-type default is kept. -/
theorem orUntyped_some_of_ne {s : String} (h : s ≠ "") : orUntyped (some s) = s := by
  simp [orUntyped, h]

/-- C4: every deadly trait token contributes exactly one critical-only
extra-dice entry to the estimated structure, with dice count 1, the
die string taken from the token suffix and the base damage type
inherited; the base entries are unaffected by the traits, and on a
critical hit the entry renders as one plain die carrying no
maximum-value flat bonus (its maximum is a single die maximum, its
minimum 1). -/
theorem claimC4 :
    ∀ (item : ItemData) (strMod : Int) (bd : WeaponDamage) (t : String) (v : Nat),
      item.damage = some bd →
      jsStartsWith t "deadly-" = true →
      (∃ dd, buildSyntheticDamageData item strMod = some dd
        ∧ dd.dice = item.traits.filterMap (fun tr =>
            if jsStartsWith tr "deadly-" then
              some ⟨true, false, some true, 1, some (tr.drop 7),
                some (orUntyped bd.damageType), none⟩
            else none)
        ∧ dd.base = (if bd.dice ≠ 0 ∧ strTruthy bd.die then
            [⟨bd.dice, bd.die, bd.modifier.getD 0, some (orUntyped bd.damageType), none⟩]
          else []))
      ∧ ((if jsStartsWith t "deadly-" then
            some (⟨true, false, some true, 1, some (t.drop 7),
              some (orUntyped bd.damageType), none⟩ : DiceData)
          else none)
        = some ⟨true, false, some true, 1, some (t.drop 7),
            some (orUntyped bd.damageType), none⟩)
      ∧ (t.drop 7 ≠ "" → parseDieValue (t.drop 7) = some v → 1 ≤ v →
          dicePartStr true ⟨true, false, some true, 1, some (t.drop 7),
              some (orUntyped bd.damageType), none⟩
            = some (render (DExpr.tag (.paren (.diceS 1 (t.drop 7) v))
                (orUntyped bd.damageType)))
          ∧ maxVal (DExpr.tag (.paren (.diceS 1 (t.drop 7) v)) (orUntyped bd.damageType)) = v
          ∧ minVal (DExpr.tag (.paren (.diceS 1 (t.drop 7) v)) (orUntyped bd.damageType)) = 1) := by
  intro item strMod bd t v hdm ht
  have hB : buildSyntheticDamageData item strMod = some
      { base := if bd.dice ≠ 0 ∧ strTruthy bd.die then
          [⟨bd.dice, bd.die, bd.modifier.getD 0, some (orUntyped bd.damageType), none⟩]
        else [],
        modifiers := if item.itemType = ItemType.weapon ∧ item.category ≠ some "unarmed"
            ∧ 0 < strMod then [⟨true, false, strMod, none, none⟩] else [],
        dice := item.traits.filterMap (fun tr =>
          if jsStartsWith tr "deadly-" then
            some ⟨true, false, some true, 1, some (tr.drop 7),
              some (orUntyped bd.damageType), none⟩
          else none) } := by
    simp only [buildSyntheticDamageData]
    rw [hdm]
  refine ⟨⟨_, hB, rfl, rfl⟩, by rw [if_pos ht], ?_⟩
  intro hne hparse hv
  have hts : strTruthy (some (t.drop 7)) = true := by simp [strTruthy, hne]
  refine ⟨?_, ?_, ?_⟩
  · simp [dicePartStr, strTruthy, hne, orUntyped_some_of_ne (orUntyped_ne_empty bd.damageType),
      render, strAppendAssoc]
  · simp [maxVal]
  · simp [minVal]

/-- Witness for C4: a weapon with slashing base damage and a deadly-d10
trait. -/
theorem claimC4_witness :
    (({ id := 1, itemType := ItemType.weapon,
        damage := some ⟨1, some "d6", some "slashing", some 2, none, none⟩,
        spellDamage := [], splashDamage := none, bonusDamage := none,
        runesStriking := none, traits := ["deadly-d10"], bonus := JsBonus.absent,
        flatDamageBonus := none, properties := [], category := none } : ItemData).damage
          = some ⟨1, some "d6", some "slashing", some 2, none, none⟩
      ∧ jsStartsWith "deadly-d10" "deadly-" = true)
    ∧ ((∃ dd, buildSyntheticDamageData
          { id := 1, itemType := ItemType.weapon,
            damage := some ⟨1, some "d6", some "slashing", some 2, none, none⟩,
            spellDamage := [], splashDamage := none, bonusDamage := none,
            runesStriking := none, traits := ["deadly-d10"], bonus := JsBonus.absent,
            flatDamageBonus := none, properties := [], category := none } 0 = some dd
        ∧ dd.dice = (["deadly-d10"] : List String).filterMap (fun tr =>
            if jsStartsWith tr "deadly-" then
              some ⟨true, false, some true, 1, some (tr.drop 7),
                some (orUntyped (some "slashing")), none⟩
            else none)
        ∧ dd.base = (if (1 : Nat) ≠ 0 ∧ strTruthy (some "d6") then
            [⟨1, some "d6", (some (2 : Int)).getD 0, some (orUntyped (some "slashing")), none⟩]
          else []))
      ∧ ((if jsStartsWith "deadly-d10" "deadly-" then
            some (⟨true, false, some true, 1, some (("deadly-d10").drop 7),
              some (orUntyped (some "slashing")), none⟩ : DiceData)
          else none)
        = some ⟨true, false, some true, 1, some (("deadly-d10").drop 7),
            some (orUntyped (some "slashing")), none⟩)
      ∧ (("deadly-d10").drop 7 ≠ "" → parseDieValue (("deadly-d10").drop 7) = some 10 →
          1 ≤ 10 →
          dicePartStr true ⟨true, false, some true, 1, some (("deadly-d10").drop 7),
              some (orUntyped (some "slashing")), none⟩
            = some (render (DExpr.tag (.paren (.diceS 1 (("deadly-d10").drop 7) 10))
                (orUntyped (some "slashing"))))
          ∧ maxVal (DExpr.tag (.paren (.diceS 1 (("deadly-d10").drop 7) 10))
              (orUntyped (some "slashing"))) = 10
          ∧ minVal (DExpr.tag (.paren (.diceS 1 (("deadly-d10").drop 7) 10))
              (orUntyped (some "slashing"))) = 1)) :=
  ⟨⟨rfl, by decide⟩,
   claimC4
     { id := 1, itemType := ItemType.weapon,
       damage := some ⟨1, some "d6", some "slashing", some 2, none, none⟩,
       spellDamage := [], splashDamage := none, bonusDamage := none,
       runesStriking := none, traits := ["deadly-d10"], bonus := JsBonus.absent,
       flatDamageBonus := none, properties := [], category := none }
     0 ⟨1, some "d6", some "slashing", some 2, none, none⟩ "deadly-d10" 10 rfl (by decide)⟩

/-- C5: with a striking rune present, the critical weapon parse folds
the rune dice into the base dice count of the one synthesized base
component, so the maximum-value flat bonus literal in the formula is
(base dice + striking dice) * dieSize and the formula maximum is twice
that dice maximum plus the aggregated modifier. -/
theorem claimC5 :
    ∀ (item : ItemData) (bd : WeaponDamage) (dstr : String) (s : Int) (v : Nat),
      item.damage = some bd →
      bd.die = some dstr → dstr ≠ "" → jsSplitD1 dstr ≠ "" →
      parseIntJS (jsSplitD1 dstr) = some v → 1 ≤ v →
      bd.dice ≠ 0 →
      item.runesStriking = some s → 0 < s →
      parseWeaponDamage item true
          = some (createDamageFormula (bd.dice + s.toNat) v (weaponTotalModifier item bd)
              (orUntyped bd.damageType) "")
        ∧ maxVal (createDamageFormulaE (bd.dice + s.toNat) v (weaponTotalModifier item bd)
              (orUntyped bd.damageType) "")
            = 2 * (bd.dice + s.toNat) * v + weaponTotalModifier item bd
        ∧ createDamageFormula (bd.dice + s.toNat) v (weaponTotalModifier item bd)
              (orUntyped bd.damageType) ""
            = "(" ++ toString (bd.dice + s.toNat) ++ "d" ++ toString v ++ "+"
              ++ toString ((bd.dice + s.toNat) * v) ++ "+"
              ++ toString (weaponTotalModifier item bd) ++ ")"
              ++ "[" ++ orUntyped bd.damageType ++ "]" := by
  intro item bd dstr s v hdm hdie hd1 hd2 hparse hv hdice hrs hs
  refine ⟨?_, ?_, ?_⟩
  · simp only [parseWeaponDamage, hdm, hdie]
    rw [if_pos hd1]
    simp only [Option.getD_some]
    rw [if_pos (show bd.dice ≠ 0 ∧ jsSplitD1 dstr ≠ "" from ⟨hdice, hd2⟩), if_pos trivial]
    simp only [hrs]
    rw [if_pos hs, hparse]
    simp only [Option.getD_some]
  · exact maxVal_createDamageFormulaE _ _ _ _ _ (by omega) (by omega)
  · simp only [createDamageFormula, critCore]
    rw [if_pos (show bd.dice + s.toNat ≠ 0 ∧ v ≠ 0 from ⟨by omega, by omega⟩)]
    rw [if_neg (show ¬(("" : String) ≠ "") from by simp)]
    rw [if_pos (show orUntyped bd.damageType ≠ "" from orUntyped_ne_empty bd.damageType)]

/-- Witness for C5: a 1d6 weapon with a striking rune granting 2 extra
dice; the critical parse folds it to 3 dice. -/
theorem claimC5_witness :
    (let item : ItemData :=
      { id := 2, itemType := ItemType.weapon,
        damage := some ⟨1, some "d6", some "slashing", some 3, none, none⟩,
        spellDamage := [], splashDamage := none, bonusDamage := none,
        runesStriking := some 2, traits := [], bonus := JsBonus.absent,
        flatDamageBonus := none, properties := [], category := none };
    let bd : WeaponDamage := ⟨1, some "d6", some "slashing", some 3, none, none⟩;
    (item.damage = some bd ∧ bd.die = some "d6" ∧ ("d6" : String) ≠ "" ∧ jsSplitD1 "d6" ≠ ""
        ∧ parseIntJS (jsSplitD1 "d6") = some 6 ∧ 1 ≤ 6 ∧ bd.dice ≠ 0
        ∧ item.runesStriking = some 2 ∧ (0 : Int) < 2)
      ∧ (parseWeaponDamage item true
            = some (createDamageFormula (1 + (2 : Int).toNat) 6 (weaponTotalModifier item bd)
                (orUntyped bd.damageType) "")
          ∧ maxVal (createDamageFormulaE (1 + (2 : Int).toNat) 6 (weaponTotalModifier item bd)
                (orUntyped bd.damageType) "")
              = 2 * (1 + (2 : Int).toNat) * 6 + weaponTotalModifier item bd
          ∧ createDamageFormula (1 + (2 : Int).toNat) 6 (weaponTotalModifier item bd)
                (orUntyped bd.damageType) ""
              = "(" ++ toString (1 + (2 : Int).toNat) ++ "d" ++ toString 6 ++ "+"
                ++ toString ((1 + (2 : Int).toNat) * 6) ++ "+"
                ++ toString (weaponTotalModifier item bd) ++ ")"
                ++ "[" ++ orUntyped bd.damageType ++ "]")) := by
  refine ⟨⟨rfl, rfl, by decide, by decide, by decide, by decide, by decide, rfl, by decide⟩, ?_⟩
  exact claimC5 _ _ "d6" 2 6 rfl rfl (by decide) (by decide) (by decide) (by decide)
    (by decide) rfl (by decide)

/-- C6: non-critical synthesis never adds a maximum-value bonus term
and never doubles the flat modifier, for createStandardDamageFormula,
for the non-critical base path of createAlternativeCriticalFormula
(maximum is dice maximum plus modifier, minimum is dice count plus
modifier), and for the modifiers path, whose output on a non-critical
hit is independent of the double-static setting and carries the raw
modifier value. -/
theorem claimC6 :
    (∀ (n v : Nat) (m : Int) (dt c : String), 1 ≤ n → 1 ≤ v →
      createStandardDamageFormula n v m dt c = render (createStandardDamageFormulaE n v m dt c)
        ∧ maxVal (createStandardDamageFormulaE n v m dt c) = n * v + m
        ∧ minVal (createStandardDamageFormulaE n v m dt c) = n + m)
    ∧ (∀ (n v : Nat) (ds : String) (m : Int) (dt cat : Option String),
        1 ≤ n → 1 ≤ v → parseDieValue ds = some v → ds ≠ "" →
      ∃ e, basePartE false ⟨n, some ds, m, dt, cat⟩ = some e
        ∧ basePartStr false ⟨n, some ds, m, dt, cat⟩ = some (render e)
        ∧ maxVal e = n * v + m
        ∧ minVal e = n + m)
    ∧ (∀ (me : ModifierData) (a b : Bool),
        modifierPartStr false a me = modifierPartStr false b me)
    ∧ (∀ (me : ModifierData) (ds : Bool) (e : DExpr),
        modifierPartE false ds me = some e →
        maxVal e = me.modifier ∧ minVal e = me.modifier) := by
  refine ⟨?_, ?_, ?_, ?_⟩
  · intro n v m dt c hn hv
    have hn0 : n ≠ 0 := by omega
    have hv0 : v ≠ 0 := by omega
    refine ⟨createStandardDamageFormula_render n v m dt c, ?_, ?_⟩ <;>
    · simp only [createStandardDamageFormulaE]
      rw [if_pos (And.intro hn0 hv0)]
      split_ifs <;> simp [maxVal, minVal]
  · intro n v ds m dt cat hn hv hparse hds
    have hn0 : n ≠ 0 := by omega
    have hts : strTruthy (some ds) = true := by simp [strTruthy, hds]
    have hE : basePartE false ⟨n, some ds, m, dt, cat⟩
        = some (DExpr.tag (if m ≠ 0 then
            DExpr.paren (.add (.diceS n ds v) (.litI m))
          else DExpr.paren (.diceS n ds v)) (orUntyped dt)) := by
      simp [basePartE, if_pos (And.intro hn0 hts), hparse]
    refine ⟨_, hE, ?_, ?_, ?_⟩
    · rw [basePart_render, hE]; rfl
    · split_ifs with hm
      · simp [maxVal]
      · push_neg at hm; subst hm; simp [maxVal]
    · split_ifs with hm
      · simp [minVal]
      · push_neg at hm; subst hm; simp [minVal]
  · intro me a b
    simp only [modifierPartStr, Bool.false_eq_true, false_and, if_false]
  · intro me ds e h
    simp only [modifierPartE, Bool.false_eq_true, false_and, if_false] at h
    split_ifs at h <;>
      (rw [Option.some_inj] at h; subst h; simp [maxVal, minVal])

/-- Witness for C6 at a 2d6+3 component and a +3 modifier entry. -/
theorem claimC6_witness :
    ((1 ≤ 2 ∧ 1 ≤ 6)
      ∧ (createStandardDamageFormula 2 6 3 "fire" ""
            = render (createStandardDamageFormulaE 2 6 3 "fire" "")
          ∧ maxVal (createStandardDamageFormulaE 2 6 3 "fire" "") = 2 * 6 + 3
          ∧ minVal (createStandardDamageFormulaE 2 6 3 "fire" "") = 2 + 3))
    ∧ (modifierPartStr false true ⟨true, false, 3, none, none⟩
        = modifierPartStr false false ⟨true, false, 3, none, none⟩)
    ∧ (modifierPartE false true ⟨true, false, 3, none, none⟩
          = some (DExpr.tag (.litI 3) "untyped")
        ∧ (maxVal (DExpr.tag (.litI 3) "untyped")
              = (⟨true, false, 3, none, none⟩ : ModifierData).modifier
          ∧ minVal (DExpr.tag (.litI 3) "untyped")
              = (⟨true, false, 3, none, none⟩ : ModifierData).modifier)) :=
  ⟨⟨⟨by decide, by decide⟩, claimC6.1 2 6 3 "fire" "" (by decide) (by decide)⟩,
   claimC6.2.2.1 ⟨true, false, 3, none, none⟩ true false,
   by decide,
   claimC6.2.2.2 ⟨true, false, 3, none, none⟩ true (DExpr.tag (.litI 3) "untyped") (by decide)⟩

/-- Filtering out elements on which a filterMap function is none does
not change the filterMap result. -/
theorem filterMap_filter_eq {α β : Type} (f : α → Option β) (p : α → Bool)
    (h : ∀ x, p x = false → f x = none) (l : List α) :
    (l.filter p).filterMap f = l.filterMap f := by
  induction l with
  | nil => rfl
  | cons a t ih =>
    by_cases hp : p a = true
    · simp [List.filter_cons, hp, List.filterMap_cons, ih]
    · have hpf : p a = false := by
        cases hpa : p a
        · rfl
        · exact absurd hpa hp
      simp [List.filter_cons, hpf, List.filterMap_cons, h a hpf, ih]

/-- A disabled or ignored modifiers entry contributes no formula part. -/
theorem modifierPartStr_inactive (crit ds : Bool) (me : ModifierData)
    (hx : (me.enabled && !me.ignored) = false) : modifierPartStr crit ds me = none := by
  have hcond : ¬(me.enabled = true ∧ ¬me.ignored = true ∧ me.modifier ≠ 0) := by
    intro hand
    obtain ⟨h1, h2, _⟩ := hand
    have h2f : me.ignored = false := by
      cases hi : me.ignored
      · rfl
      · exact absurd hi h2
    rw [h1, h2f] at hx
    simp at hx
  simp only [modifierPartStr]
  rw [if_neg hcond]

/-- A disabled or ignored extra-dice entry contributes no formula part. -/
theorem dicePartStr_inactive (crit : Bool) (d : DiceData)
    (hx : (d.enabled && !d.ignored) = false) : dicePartStr crit d = none := by
  have hcond : ¬(d.enabled = true ∧ ¬d.ignored = true ∧ d.critical = some true
      ∧ crit = true ∧ d.diceNumber ≠ 0 ∧ strTruthy d.dieSize = true) := by
    intro hand
    obtain ⟨h1, h2, _⟩ := hand
    have h2f : d.ignored = false := by
      cases hi : d.ignored
      · rfl
      · exact absurd hi h2
    rw [h1, h2f] at hx
    simp at hx
  simp only [dicePartStr]
  rw [if_neg hcond]

/-- C7: modifiers entries and extra-dice entries that are disabled or
ignored contribute nothing to the synthesized formula; filtering them
out of a rich damage structure leaves the synthesized alternative
formula unchanged. -/
theorem claimC7 :
    (∀ (me : ModifierData) (crit ds : Bool), me.enabled = false ∨ me.ignored = true →
      modifierPartStr crit ds me = none)
    ∧ (∀ (d : DiceData) (crit : Bool), d.enabled = false ∨ d.ignored = true →
      dicePartStr crit d = none)
    ∧ (∀ (dd : DamageData) (crit ds : Bool),
      createAlternativeCriticalFormula dd crit ds
        = createAlternativeCriticalFormula
            ⟨dd.base, dd.modifiers.filter (fun m => m.enabled && !m.ignored),
             dd.dice.filter (fun d => d.enabled && !d.ignored)⟩ crit ds) := by
  refine ⟨?_, ?_, ?_⟩
  · intro me crit ds h
    refine modifierPartStr_inactive crit ds me ?_
    rcases h with h | h <;> simp [h]
  · intro d crit h
    refine dicePartStr_inactive crit d ?_
    rcases h with h | h <;> simp [h]
  · intro dd crit ds
    simp only [createAlternativeCriticalFormula]
    rw [filterMap_filter_eq (modifierPartStr crit ds) (fun m => m.enabled && !m.ignored)
        (fun x hx => modifierPartStr_inactive crit ds x hx) dd.modifiers,
      filterMap_filter_eq (dicePartStr crit) (fun d => d.enabled && !d.ignored)
        (fun x hx => dicePartStr_inactive crit x hx) dd.dice]

/-- Witness for C7 on a disabled modifier entry, an ignored dice entry
and a one-entry structure. -/
theorem claimC7_witness :
    ((⟨false, false, 5, none, none⟩ : ModifierData).enabled = false
        ∨ (⟨false, false, 5, none, none⟩ : ModifierData).ignored = true)
    ∧ modifierPartStr true true ⟨false, false, 5, none, none⟩ = none
    ∧ dicePartStr true ⟨true, true, some true, 1, some "d6", none, none⟩ = none
    ∧ createAlternativeCriticalFormula
        ⟨[⟨1, some "d6", 2, some "slashing", none⟩], [⟨false, false, 5, none, none⟩], []⟩
        true true
      = createAlternativeCriticalFormula
          ⟨[⟨1, some "d6", 2, some "slashing", none⟩],
           ([⟨false, false, 5, none, none⟩] : List ModifierData).filter
             (fun m => m.enabled && !m.ignored),
           ([] : List DiceData).filter (fun d => d.enabled && !d.ignored)⟩ true true :=
  ⟨Or.inl (by decide),
   claimC7.1 ⟨false, false, 5, none, none⟩ true true (Or.inl (by decide)),
   claimC7.2.1 ⟨true, true, some true, 1, some "d6", none, none⟩ true (Or.inr (by decide)),
   claimC7.2.2 ⟨[⟨1, some "d6", 2, some "slashing", none⟩],
     [⟨false, false, 5, none, none⟩], []⟩ true true⟩

/-- C8: when the capture lookup misses, the estimated structure has no
base dice, and the legacy parse finds no formula, the invocation ends
in a user-visible warning with no roll issued and no chat post. -/
theorem claimC8 :
    ∀ (cache : Option LastDamageRollData) (item : ItemData) (strMod : Int) (now : Int)
      (crit ds : Bool),
      lookupCapturedDamage cache item.id now = none →
      ((buildSyntheticDamageData item strMod).map DamageData.base).getD [] = [] →
      legacyDamageFormula item crit ds = none →
      rollAlternativeCriticalDamageFromPF2eData cache item strMod now crit ds
        = AltCritOutcome.warned := by
  intro cache item strMod now crit ds h1 h2 h3
  simp only [rollAlternativeCriticalDamageFromPF2eData, h1]
  simp only [attemptDirectDamageCalculation]
  cases hb : buildSyntheticDamageData item strMod with
  | none => simp [rollAlternativeCriticalDamageLegacy, h3]
  | some s =>
    rw [hb] at h2
    simp at h2
    simp [rollAlternativeCriticalDamageLegacy, h2, h3]

/-- Witness for C8: an item with no damage data of any shape, no
capture and no traits. -/
theorem claimC8_witness :
    (lookupCapturedDamage none 0 0 = none
      ∧ ((buildSyntheticDamageData
          { id := 0, itemType := ItemType.other, damage := none, spellDamage := [],
            splashDamage := none, bonusDamage := none, runesStriking := none,
            traits := [], bonus := JsBonus.absent, flatDamageBonus := none,
            properties := [], category := none } 0).map DamageData.base).getD [] = []
      ∧ legacyDamageFormula
          { id := 0, itemType := ItemType.other, damage := none, spellDamage := [],
            splashDamage := none, bonusDamage := none, runesStriking := none,
            traits := [], bonus := JsBonus.absent, flatDamageBonus := none,
            properties := [], category := none } true true = none)
    ∧ rollAlternativeCriticalDamageFromPF2eData none
        { id := 0, itemType := ItemType.other, damage := none, spellDamage := [],
          splashDamage := none, bonusDamage := none, runesStriking := none,
          traits := [], bonus := JsBonus.absent, flatDamageBonus := none,
          properties := [], category := none } 0 0 true true
      = AltCritOutcome.warned :=
  ⟨⟨by decide, by decide, by decide⟩,
   claimC8 none
     { id := 0, itemType := ItemType.other, damage := none, spellDamage := [],
       splashDamage := none, bonusDamage := none, runesStriking := none,
       traits := [], bonus := JsBonus.absent, flatDamageBonus := none,
       properties := [], category := none } 0 0 true true (by decide) (by decide) (by decide)⟩

/-- C9: a component with diceCount 0 is never synthesized as a dice
expression: createDamageFormula falls back to the flat-modifier
rendering (independent of the die argument, reducing to the modifier
value alone plus tags), the captured-structure base path rejects the
entry outright, and a pure flat modifier entry is doubled exactly when
the hit is critical and the double-static setting is on. -/
theorem claimC9 :
    (∀ (v : Nat) (m : Int) (dt c : String), m ≠ 0 →
      createDamageFormula 0 v m dt c = createDamageFormula 0 0 m dt c
        ∧ createDamageFormula 0 v m dt "" = toString m ++ "[" ++ orUntypedS dt ++ "]")
    ∧ (∀ (b : BaseDamage) (crit : Bool), b.diceNumber = 0 → basePartStr crit b = none)
    ∧ (∀ (me : ModifierData) (crit ds : Bool) (e : DExpr),
        modifierPartE crit ds me = some e →
        maxVal e = (if crit ∧ ds then me.modifier * 2 else me.modifier)
          ∧ minVal e = (if crit ∧ ds then me.modifier * 2 else me.modifier)) := by
  refine ⟨?_, ?_, ?_⟩
  · intro v m dt c hm
    constructor
    · simp [createDamageFormula, critCore]
    · simp only [createDamageFormula, critCore]
      rw [if_neg (by simp : ¬((0 : Nat) ≠ 0 ∧ v ≠ 0)), if_pos hm,
        if_neg (show ¬(("" : String) ≠ "") from by simp)]
      by_cases hdt : dt = ""
      · subst hdt
        rw [if_neg (by simp), orUntypedS_empty]
        simp only [strAppendAssoc]
        rfl
      · rw [if_pos hdt, orUntypedS_of_ne hdt]
  · intro b crit h0
    simp only [basePartStr]
    rw [if_neg]
    intro hand
    exact hand.1 h0
  · intro me crit ds e h
    simp only [modifierPartE] at h
    split_ifs at h ⊢ <;>
      (rw [Option.some_inj] at h; subst h; simp [maxVal, minVal])

/-- Witness for C9 on a zero-dice component with modifier 7 and a
doubled modifier entry. -/
theorem claimC9_witness :
    (((7 : Int) ≠ 0)
      ∧ (createDamageFormula 0 6 7 "fire" "" = createDamageFormula 0 0 7 "fire" ""
        ∧ createDamageFormula 0 6 7 "fire" "" = toString (7 : Int) ++ "[" ++ orUntypedS "fire" ++ "]"))
    ∧ ((⟨0, some "d6", 7, none, none⟩ : BaseDamage).diceNumber = 0
      ∧ basePartStr true ⟨0, some "d6", 7, none, none⟩ = none)
    ∧ (modifierPartE true true ⟨true, false, 7, none, none⟩
          = some (DExpr.tag (.litI (7 * 2)) "untyped")
      ∧ (maxVal (DExpr.tag (.litI (7 * 2)) "untyped")
            = (if true ∧ true then (⟨true, false, 7, none, none⟩ : ModifierData).modifier * 2
              else (⟨true, false, 7, none, none⟩ : ModifierData).modifier)
        ∧ minVal (DExpr.tag (.litI (7 * 2)) "untyped")
            = (if true ∧ true then (⟨true, false, 7, none, none⟩ : ModifierData).modifier * 2
              else (⟨true, false, 7, none, none⟩ : ModifierData).modifier))) :=
  ⟨⟨by decide, claimC9.1 6 7 "fire" "" (by decide)⟩,
   ⟨by decide, claimC9.2.1 ⟨0, some "d6", 7, none, none⟩ true (by decide)⟩,
   ⟨by decide,
    claimC9.2.2 ⟨true, false, 7, none, none⟩ true true
      (DExpr.tag (.litI (7 * 2)) "untyped") (by decide)⟩⟩

/-- An extra-dice entry whose critical flag is not exactly true never
contributes a formula part. -/
theorem dicePartStr_of_critical_ne (crit : Bool) (d : DiceData)
    (hx : (d.critical == some true) = false) : dicePartStr crit d = none := by
  have hcond : ¬(d.enabled = true ∧ ¬d.ignored = true ∧ d.critical = some true
      ∧ crit = true ∧ d.diceNumber ≠ 0 ∧ strTruthy d.dieSize = true) := by
    intro hand
    rw [hand.2.2.1] at hx
    simp at hx
  simp only [dicePartStr]
  rw [if_neg hcond]

/-- C10: an extra-dice entry whose criticalOnly flag is not exactly
true is omitted from the synthesized formula on both critical and
non-critical invocations; filtering such entries out of a rich damage
structure leaves the synthesized alternative formula unchanged. -/
theorem claimC10 :
    (∀ (d : DiceData) (crit : Bool), d.critical ≠ some true → dicePartStr crit d = none)
    ∧ (∀ (dd : DamageData) (crit ds : Bool),
      createAlternativeCriticalFormula dd crit ds
        = createAlternativeCriticalFormula
            ⟨dd.base, dd.modifiers,
             dd.dice.filter (fun d => d.critical == some true)⟩ crit ds) := by
  constructor
  · intro d crit h
    refine dicePartStr_of_critical_ne crit d ?_
    simp [h]
  · intro dd crit ds
    simp only [createAlternativeCriticalFormula]
    rw [filterMap_filter_eq (dicePartStr crit) (fun d => d.critical == some true)
      (fun x hx => dicePartStr_of_critical_ne crit x hx) dd.dice]

/-- Witness for C10 on an entry with the critical flag false, on both a
critical and a non-critical invocation, and on a one-entry structure. -/
theorem claimC10_witness :
    ((⟨true, false, some false, 1, some "d6", none, none⟩ : DiceData).critical ≠ some true
      ∧ dicePartStr true ⟨true, false, some false, 1, some "d6", none, none⟩ = none
      ∧ dicePartStr false ⟨true, false, some false, 1, some "d6", none, none⟩ = none)
    ∧ createAlternativeCriticalFormula
        ⟨[⟨1, some "d6", 2, some "slashing", none⟩], [],
         [⟨true, false, some false, 1, some "d6", none, none⟩]⟩ true true
      = createAlternativeCriticalFormula
          ⟨[⟨1, some "d6", 2, some "slashing", none⟩], [],
           ([⟨true, false, some false, 1, some "d6", none, none⟩] : List DiceData).filter
             (fun d => d.critical == some true)⟩ true true :=
  ⟨⟨by decide,
    claimC10.1 ⟨true, false, some false, 1, some "d6", none, none⟩ true (by decide),
    claimC10.1 ⟨true, false, some false, 1, some "d6", none, none⟩ false (by decide)⟩,
   claimC10.2 ⟨[⟨1, some "d6", 2, some "slashing", none⟩], [],
     [⟨true, false, some false, 1, some "d6", none, none⟩]⟩ true true⟩
